import Mathlib

/-!
Verification of the ponieproxy traffic-inspection core
(`pkg/utils/utils.go` and the custom request/response filters).

The Go code is shallowly embedded: the filesystem touched by
`WriteUniqueFile` / `AppendToFile` / `FileExists` is an association list
from file path to file content, machine-level byte strings are `String`
or `List Nat`, and 32-bit arithmetic in the SHA-1 correlator is `Nat`
reduced modulo `2 ^ 32`.
-/

namespace Ponieproxy

/-! ## Filesystem model

The only mutable shared state of the core is the output directory and its
files (spec §5).  A filesystem is a finite map from path to content,
represented as an association list. -/

abbrev FS := List (String × String)

/-- Content of the file at path `p`, `none` when no such file exists. -/
def lookupFile : FS → String → Option String
  | [], _ => none
  | (q, c) :: fs, p => if q = p then some c else lookupFile fs p

/-- Overwrite (or create) the file at path `p` with content `c`. -/
def setFile : FS → String → String → FS
  | [], p, c => [(p, c)]
  | (q, c0) :: fs, p, c => if q = p then (q, c) :: fs else (q, c0) :: setFile fs p c

/-- Embeds `FileExists` (utils.go lines 91-94): `os.Stat` succeeds exactly
when the path is present in the filesystem. -/
def FileExists (fs : FS) (p : String) : Bool :=
  (lookupFile fs p).isSome

/-- Embeds `AppendToFile` (utils.go lines 72-86): when the path is non-empty,
open with `O_APPEND|O_CREATE` and write `data + "\n"`; an empty path is a
no-op returning nil. -/
def AppendToFile (fs : FS) (data filePath : String) : FS :=
  if filePath = "" then fs
  else
    match lookupFile fs filePath with
    | some c => setFile fs filePath (c ++ data ++ "\n")
    | none => (filePath, data ++ "\n") :: fs

/-- The artifact path `fmt.Sprintf("%v/%v.%v", outputDir, checksum, ext)`
built at utils.go line 32. -/
def mkFilePath (outputDir checksum ext : String) : String :=
  outputDir ++ "/" ++ checksum ++ "." ++ ext

/-- Embeds `WriteUniqueFile` (utils.go lines 27-48).  The `os.MkdirAll`
side effect only ensures the directory exists and is not part of the file
map.  The two successive `if ext == ...` statements of the Go body are kept
in order: `constructed` starts empty, is set for `"req"`, then for
`"res"`. -/
def WriteUniqueFile (fs : FS) (checksum body outputDir httpDump ext : String) : FS :=
  let filePath := mkFilePath outputDir checksum ext
  if !(FileExists fs filePath) then
    let constructed0 := ""
    let constructed1 := if ext = "req" then httpDump ++ " " ++ body else constructed0
    let constructed := if ext = "res" then httpDump else constructed1
    AppendToFile fs constructed filePath
  else fs

/-! ### Basic filesystem lemmas -/

theorem mkFilePath_ne_empty (d c e : String) : mkFilePath d c e ≠ "" := by
  intro h
  have hlen : (mkFilePath d c e).length = 0 := by rw [h]; rfl
  simp only [mkFilePath, String.length_append, Nat.add_eq_zero] at hlen
  exact absurd hlen.1.1.1.2 (by decide)

theorem lookupFile_cons_self (fs : FS) (p c : String) :
    lookupFile ((p, c) :: fs) p = some c := by
  simp [lookupFile]

/-- After a `WriteUniqueFile` call the artifact file exists. -/
theorem fileExists_after_write (fs : FS) (c b d dump e : String) :
    FileExists (WriteUniqueFile fs c b d dump e) (mkFilePath d c e) = true := by
  unfold WriteUniqueFile
  cases hex : FileExists fs (mkFilePath d c e) with
  | true => simp [hex]
  | false =>
    simp only [hex, Bool.not_false, if_pos]
    unfold AppendToFile
    rw [if_neg (mkFilePath_ne_empty d c e)]
    have hnone : lookupFile fs (mkFilePath d c e) = none := by
      unfold FileExists at hex
      cases h : lookupFile fs (mkFilePath d c e) with
      | none => rfl
      | some v => rw [h] at hex; simp at hex
    rw [hnone]
    simp [FileExists, lookupFile_cons_self]

/-- A fresh `WriteUniqueFile` stores exactly `constructed ++ "\n"` where
`constructed` is the dump/body concatenation selected by `ext`. -/
theorem writeUnique_fresh_content (fs : FS) (c b d dump e : String)
    (hfresh : FileExists fs (mkFilePath d c e) = false) :
    lookupFile (WriteUniqueFile fs c b d dump e) (mkFilePath d c e)
      = some ((if e = "res" then dump
               else if e = "req" then dump ++ " " ++ b else "") ++ "\n") := by
  unfold WriteUniqueFile
  simp only [hfresh, Bool.not_false, if_pos]
  unfold AppendToFile
  rw [if_neg (mkFilePath_ne_empty d c e)]
  have hnone : lookupFile fs (mkFilePath d c e) = none := by
    unfold FileExists at hfresh
    cases h : lookupFile fs (mkFilePath d c e) with
    | none => rfl
    | some v => rw [h] at hfresh; simp at hfresh
  rw [hnone]
  simp [lookupFile_cons_self]

/-- A second `WriteUniqueFile` with the same `(checksum, outputDir, ext)`
is a no-op, whatever its payload and dump. -/
theorem writeUnique_second_noop (fs : FS) (c b₁ b₂ d dump₁ dump₂ e : String) :
    WriteUniqueFile (WriteUniqueFile fs c b₁ d dump₁ e) c b₂ d dump₂ e
      = WriteUniqueFile fs c b₁ d dump₁ e := by
  have hex := fileExists_after_write fs c b₁ d dump₁ e
  generalize hfs : WriteUniqueFile fs c b₁ d dump₁ e = fs₁ at hex ⊢
  unfold WriteUniqueFile
  simp [hex]

/-! ## Checksum correlator

`PopulateUserdata` (customFilters, lines 214-218) computes
`sha1.Sum([]byte(fmt.Sprintf("%s%s%s", req.URL.Host, req.URL.Path, reqBody)))`
and hex-encodes it.  SHA-1 (Go's `crypto/sha1`, external standard library)
is embedded below over `Nat` with explicit reduction modulo `2 ^ 32`. -/

/-- Reduce to a 32-bit word. -/
def w32 (n : Nat) : Nat := n % 4294967296

/-- 32-bit left rotation (argument assumed `< 2 ^ 32`). -/
def rotl32 (x n : Nat) : Nat := w32 (x <<< n) ||| (x >>> (32 - n))

/-- UTF-8 encoding of a code point, as Go produces for `[]byte(string)`. -/
def utf8Bytes (c : Nat) : List Nat :=
  if c < 128 then [c]
  else if c < 2048 then [192 ||| (c >>> 6), 128 ||| (c &&& 63)]
  else if c < 65536 then
    [224 ||| (c >>> 12), 128 ||| ((c >>> 6) &&& 63), 128 ||| (c &&& 63)]
  else
    [240 ||| (c >>> 18), 128 ||| ((c >>> 12) &&& 63),
     128 ||| ((c >>> 6) &&& 63), 128 ||| (c &&& 63)]

/-- The byte sequence of a string (Go's `[]byte(s)`). -/
def strBytes (s : String) : List Nat :=
  (s.data.map fun c => utf8Bytes c.toNat).flatten

/-- Big-endian 8-byte encoding of the bit length, for SHA-1 padding. -/
def beBytes8 (n : Nat) : List Nat :=
  [(n >>> 56) % 256, (n >>> 48) % 256, (n >>> 40) % 256, (n >>> 32) % 256,
   (n >>> 24) % 256, (n >>> 16) % 256, (n >>> 8) % 256, n % 256]

/-- Big-endian 4-byte encoding of a 32-bit word. -/
def beBytes4 (n : Nat) : List Nat :=
  [(n >>> 24) % 256, (n >>> 16) % 256, (n >>> 8) % 256, n % 256]

/-- SHA-1 padding: `0x80`, zeros to 56 mod 64, then the 64-bit bit length. -/
def sha1Pad (msg : List Nat) : List Nat :=
  let padZeros := (119 - msg.length % 64) % 64
  msg ++ [128] ++ List.replicate padZeros 0 ++ beBytes8 (msg.length * 8)

/-- Split a byte list into 64-byte blocks. -/
def chunk64 (l : List Nat) : List (List Nat) :=
  match l with
  | [] => []
  | a :: t => ((a :: t).take 64) :: chunk64 (t.drop 63)
termination_by l.length
decreasing_by
  simp only [List.length_cons, List.length_drop]
  omega

/-- Big-endian 32-bit words of a block. -/
def toWords : List Nat → List Nat
  | b0 :: b1 :: b2 :: b3 :: rest =>
    w32 ((b0 <<< 24) + (b1 <<< 16) + (b2 <<< 8) + b3) :: toWords rest
  | _ => []

/-- Extend the 16 schedule words to 80. -/
def extendTo80 (ws : List Nat) : List Nat :=
  if ws.length ≥ 80 then ws
  else
    extendTo80 (ws ++ [rotl32 (ws.getD (ws.length - 3) 0 ^^^ ws.getD (ws.length - 8) 0 ^^^
      ws.getD (ws.length - 14) 0 ^^^ ws.getD (ws.length - 16) 0) 1])
termination_by 80 - ws.length
decreasing_by
  simp only [List.length_append, List.length_cons, List.length_nil]
  omega

/-- SHA-1 round constant. -/
def sha1K (t : Nat) : Nat :=
  if t < 20 then 1518500249
  else if t < 40 then 1859775393
  else if t < 60 then 2400959708
  else 3395469782

/-- SHA-1 round function (choose / parity / majority / parity). -/
def sha1F (t b c d : Nat) : Nat :=
  if t < 20 then (b &&& c) ||| ((4294967295 ^^^ b) &&& d)
  else if t < 40 then b ^^^ c ^^^ d
  else if t < 60 then (b &&& c) ||| (b &&& d) ||| (c &&& d)
  else b ^^^ c ^^^ d

/-- One SHA-1 compression step over the numbered schedule word `(t, w)`. -/
def sha1Step (st : Nat × Nat × Nat × Nat × Nat) (tw : Nat × Nat) :
    Nat × Nat × Nat × Nat × Nat :=
  let (a, b, c, d, e) := st
  let (t, w) := tw
  (w32 (rotl32 a 5 + sha1F t b c d + e + sha1K t + w), a, rotl32 b 30, c, d)

/-- Compress one 64-byte block into the running hash state. -/
def sha1Compress (h : Nat × Nat × Nat × Nat × Nat) (block : List Nat) :
    Nat × Nat × Nat × Nat × Nat :=
  let ws := extendTo80 (toWords block)
  let (h0, h1, h2, h3, h4) := h
  let (a, b, c, d, e) := ((List.range 80).zip ws).foldl sha1Step (h0, h1, h2, h3, h4)
  (w32 (h0 + a), w32 (h1 + b), w32 (h2 + c), w32 (h3 + d), w32 (h4 + e))

/-- SHA-1 digest (20 bytes) of a byte sequence. -/
def sha1Bytes (msg : List Nat) : List Nat :=
  let (h0, h1, h2, h3, h4) :=
    (chunk64 (sha1Pad msg)).foldl sha1Compress
      (1732584193, 4023233417, 2562383102, 271733878, 3285377520)
  beBytes4 h0 ++ beBytes4 h1 ++ beBytes4 h2 ++ beBytes4 h3 ++ beBytes4 h4

/-- Lowercase hex digit, as produced by Go's `hex.EncodeToString`. -/
def hexDigit (n : Nat) : Char :=
  if n < 10 then Char.ofNat (48 + n) else Char.ofNat (87 + n)

/-- Two lowercase hex characters of one byte. -/
def byteHex (b : Nat) : List Char := [hexDigit (b / 16), hexDigit (b % 16)]

/-- Hex encoding of a byte sequence. -/
def hexOfBytes (bs : List Nat) : String := ⟨(bs.map byteHex).flatten⟩

/-- The transaction identifier: hex-encoded SHA-1 of host, path and raw
request body concatenated, exactly as computed at customFilters line 214:
`hex.EncodeToString(sha1.Sum([]byte(fmt.Sprintf("%s%s%s", host, path, body))))`. -/
def correlate (host path body : String) : String :=
  hexOfBytes (sha1Bytes (strBytes host ++ strBytes path ++ strBytes body))

/-! ## Request model and the `PopulateUserdata` handler -/

/-- The parts of Go's `url.URL` that the core reads. -/
structure URL where
  host : String
  path : String
  rawQuery : String

/-- An intercepted HTTP request.  `body` holds the bytes still readable
from the `req.Body` stream (`ioutil.ReadAll` drains it). -/
structure Request where
  method : String
  url : URL
  headers : List (String × String)
  body : String

/-- `filters.UserData`: the per-transaction context attached to the proxy
context by `PopulateUserdata`. -/
structure UserData where
  reqBody : String
  reqDump : String
  checksum : String

/-- Modelled from Go's `httputil.DumpRequest(req, false)` (standard
library, external to the repository): a textual dump of the request line
and headers, without the body. -/
def dumpRequest (r : Request) : String :=
  r.method ++ " " ++ r.url.path ++
    (if r.url.rawQuery = "" then "" else "?" ++ r.url.rawQuery) ++ " HTTP/1.1\r\n" ++
    String.join (r.headers.map fun kv => kv.1 ++ ": " ++ kv.2 ++ "\r\n") ++ "\r\n"

/-- Embeds the handler of `PopulateUserdata` (customFilters lines 203-223):
read the whole body (draining the stream), dump the request without body,
compute the checksum from host, path and body bytes, store the context,
then reset `req.Body` to a fresh buffer holding the same bytes. -/
def populateUserdataHandler (r : Request) : Request × UserData :=
  let reqBody := r.body
  let consumed : Request := { r with body := "" }
  let requestDump := dumpRequest consumed
  let checksum := correlate r.url.host r.url.path reqBody
  let ud : UserData := { reqBody := reqBody, reqDump := requestDump, checksum := checksum }
  ({ consumed with body := reqBody }, ud)

/-! ## Notification dispatcher

`SendSlackNotification` (utils.go lines 99-125).  The HTTP transport is
abstracted into the outcome of `client.Do`: either a transport error
(connection failure or the 10-second client timeout, both surfaced as a
Go error) or a response with a status code and a body.  The function then
classifies the outcome exactly as the Go code does. -/

/-- Outcome of `client.Do(req)` for the webhook POST. -/
inductive HttpResult where
  | transportError (msg : String)
  | response (status : Nat) (body : String)
deriving DecidableEq

/-- Embeds the classification logic of `SendSlackNotification`: a transport
error (including timeout) is returned as-is; otherwise the body is read and
compared with the literal `"ok"`.  The status code is never inspected. -/
def SendSlackNotification (result : HttpResult) : Except String Unit :=
  match result with
  | .transportError e => .error e
  | .response _ body =>
    if body ≠ "ok" then .error "Non-ok response returned from Slack" else .ok ()

/-! ## Heuristic detectors -/

/-- Go's `strings.Contains(s, sub)` on character lists: `sub` occurs
contiguously inside `s` (the empty needle always matches). -/
def containsAt (sub : List Char) : List Char → Bool
  | [] => sub.isEmpty
  | a :: t => sub.isPrefixOf (a :: t) || containsAt sub t

/-- Go's `strings.Contains` on strings. -/
def goContains (s sub : String) : Bool := containsAt sub.data s.data

/-- Go's `strings.ToLower` (ASCII range, which covers every watchlist
entry), written as a structural map over the character list. -/
def goToLower (s : String) : String := ⟨s.data.map Char.toLower⟩

/-- The match test both detectors apply to a candidate name against a
watchlist entry (utils.go lines 143 and 160, customFilters line 309):
`strings.Contains(strings.ToLower(name), strings.ToLower(entry))`. -/
def nameMatches (name entry : String) : Bool :=
  goContains (goToLower name) (goToLower entry)

/-- Split a character list at every occurrence of `sep`. -/
def splitOnChar (sep : Char) : List Char → List Char → List (List Char)
  | [], acc => [acc.reverse]
  | c :: t, acc =>
    if c = sep then acc.reverse :: splitOnChar sep t [] else splitOnChar sep t (c :: acc)

/-- Modelled from Go's `url.Values` / `req.URL.Query()` (standard library,
external to the repository): the names of the query parameters — the part
of each `&`-separated field before the first `=` — in order of appearance.
Go iterates them as a map in unspecified order; the model fixes appearance
order. -/
def queryParamNames (rawQuery : String) : List String :=
  if rawQuery = "" then []
  else (splitOnChar '&' rawQuery.data []).map fun kv =>
    ⟨(splitOnChar '=' kv []).headD []⟩

/-- The alert message of `DetectInReqQueryParam` / `DetectIDOR`
(`"%v \nQUERY PARAM: `+"`%v`"+` \nFILE:  `+"`%v`"`). -/
def queryAlertMsg (huntType queryParam checksum : String) : String :=
  huntType ++ " \nQUERY PARAM: `" ++ queryParam ++ "` \nFILE:  `" ++ checksum ++ "`"

/-- Embeds the loop of `DetectInReqQueryParam` (utils.go lines 157-166):
one alert per query-parameter name containing the watched entry
(case-insensitively), no deduplication. -/
def DetectInReqQueryParam (huntType : String) (queryNames : List String)
    (jsonParam : String) (checksum : String) : List String :=
  queryNames.filterMap fun q =>
    if nameMatches q jsonParam then some (queryAlertMsg huntType q checksum) else none

/-- The double loop shared by the query-parameter detectors: for every
watchlist entry, for every query-parameter name, emit an alert when the
name contains the entry case-insensitively (customFilters lines 306-314,
with the watchlist generalised to a parameter). -/
def queryWatchAlerts (huntType : String) (watch : List String)
    (queryNames : List String) (checksum : String) : List String :=
  watch.flatMap fun w => DetectInReqQueryParam huntType queryNames w checksum

/-- The fixed HUNT watchlist of `DetectIDOR` (customFilters line 306). -/
def idorParams : List String :=
  ["account", "doc", "edit", "email", "group", "id", "key", "no", "number",
   "order", "profile", "report", "user"]

/-- Embeds the handler body of `DetectIDOR` (customFilters lines 302-318):
the double loop over the fixed watchlist and the request's query-parameter
names. -/
def DetectIDOR (queryNames : List String) (ud : UserData) : List String :=
  queryWatchAlerts "IDOR" idorParams queryNames ud.checksum

/-! ## JSON request-body detector

`DetectInJsonReqBody` (utils.go lines 131-151) unmarshals the request body
into `map[string]interface{}` and scans the top-level keys.  Go's
`encoding/json` (standard library, external to the repository) is modelled
by a fuel-indexed recursive-descent JSON reader covering the full JSON
grammar (objects, arrays, strings with escapes including `\uXXXX` and
surrogate pairs, numbers with fraction and exponent, booleans, null), so
that its failure boundary agrees with Go's `Unmarshal`: success exactly on
a single whole JSON value that is an object (its members) or `null`
(which sets the map to nil — zero keys — with no error). -/

/-- A JSON value.  Number literals are kept as raw tokens: the detector
reads only the keys of the top-level object, never the values. -/
inductive Json where
  | null
  | bool (b : Bool)
  | num (lit : String)
  | str (s : String)
  | arr (xs : List Json)
  | obj (kvs : List (String × Json))

/-- JSON whitespace. -/
def jsonWs (c : Char) : Bool := c = ' ' || c = '\t' || c = '\n' || c = '\r'

/-- Drop leading JSON whitespace. -/
def skipWs : List Char → List Char
  | [] => []
  | c :: t => if jsonWs c then skipWs t else c :: t

/-- Value of a hexadecimal digit. -/
def hexVal (c : Char) : Option Nat :=
  if c.isDigit then some (c.toNat - 48)
  else if 'a' ≤ c ∧ c ≤ 'f' then some (c.toNat - 87)
  else if 'A' ≤ c ∧ c ≤ 'F' then some (c.toNat - 55)
  else none

/-- Read the remainder of a JSON string literal (the opening quote already
consumed).  As in Go: the escapes `\" \\ \/ \b \f \n \r \t` and `\uXXXX`
(with surrogate pairs combined and stray surrogates replaced by U+FFFD);
any other escape or an unescaped control character is a syntax error.
Each step consumes at least one character, so fuel one beyond the input
length never runs out. -/
def readJsonString : Nat → List Char → List Char → Option (String × List Char)
  | 0, _, _ => none
  | _ + 1, _, [] => none
  | _ + 1, acc, '"' :: t => some (⟨acc.reverse⟩, t)
  | fuel + 1, acc, '\\' :: 'u' :: a :: b :: c :: d :: t =>
    (match hexVal a, hexVal b, hexVal c, hexVal d with
     | some x, some y, some z, some w =>
       let n := ((x * 16 + y) * 16 + z) * 16 + w
       if 55296 ≤ n ∧ n ≤ 57343 then
         match t with
         | '\\' :: 'u' :: a2 :: b2 :: c2 :: d2 :: t2 =>
           (match hexVal a2, hexVal b2, hexVal c2, hexVal d2 with
            | some x2, some y2, some z2, some w2 =>
              let m := ((x2 * 16 + y2) * 16 + z2) * 16 + w2
              if n ≤ 56319 ∧ 56320 ≤ m ∧ m ≤ 57343 then
                readJsonString fuel
                  (Char.ofNat (65536 + (n - 55296) * 1024 + (m - 56320)) :: acc) t2
              else readJsonString fuel ('�' :: acc) t
            | _, _, _, _ => readJsonString fuel ('�' :: acc) t)
         | _ => readJsonString fuel ('�' :: acc) t
       else readJsonString fuel (Char.ofNat n :: acc) t
     | _, _, _, _ => none)
  | fuel + 1, acc, '\\' :: e :: t =>
    (match e with
     | '"' => readJsonString fuel ('"' :: acc) t
     | '\\' => readJsonString fuel ('\\' :: acc) t
     | '/' => readJsonString fuel ('/' :: acc) t
     | 'b' => readJsonString fuel ('\x08' :: acc) t
     | 'f' => readJsonString fuel ('\x0c' :: acc) t
     | 'n' => readJsonString fuel ('\n' :: acc) t
     | 't' => readJsonString fuel ('\t' :: acc) t
     | 'r' => readJsonString fuel ('\r' :: acc) t
     | _ => none)
  | _ + 1, _, '\\' :: [] => none
  | fuel + 1, acc, c :: t =>
    if c.toNat < 32 then none else readJsonString fuel (c :: acc) t

/-- Read a digit run, returning it and the rest. -/
def readDigitSeq (acc : List Char) : List Char → List Char × List Char
  | [] => (acc.reverse, [])
  | c :: t => if c.isDigit then readDigitSeq (c :: acc) t else (acc.reverse, c :: t)

/-- Optional JSON fraction part `.digits`. -/
def readFrac (s : List Char) : Option (List Char × List Char) :=
  match s with
  | '.' :: t =>
    (match readDigitSeq [] t with
     | ([], _) => none
     | (ds, rest) => some ('.' :: ds, rest))
  | _ => some ([], s)

/-- Optional JSON exponent part `[eE][+-]?digits`. -/
def readExp (s : List Char) : Option (List Char × List Char) :=
  match s with
  | [] => some ([], [])
  | c0 :: t =>
    if c0 = 'e' ∨ c0 = 'E' then
      match t with
      | [] => none
      | c1 :: t1 =>
        if c1 = '+' ∨ c1 = '-' then
          match readDigitSeq [] t1 with
          | ([], _) => none
          | (ds, rest) => some (c0 :: c1 :: ds, rest)
        else
          match readDigitSeq [] t with
          | ([], _) => none
          | (ds, rest) => some (c0 :: ds, rest)
    else some ([], c0 :: t)

/-- Read a JSON number literal following Go's grammar — an optional minus,
`0` or a digit run not starting with `0`, an optional fraction, an
optional exponent — returning the raw token. -/
def readJsonNumber (s : List Char) : Option (String × List Char) :=
  let (neg, s1) : List Char × List Char :=
    match s with
    | '-' :: t => (['-'], t)
    | _ => ([], s)
  match s1 with
  | [] => none
  | c :: t =>
    let intPart : Option (List Char × List Char) :=
      if c = '0' then some (['0'], t)
      else if c.isDigit then some (readDigitSeq [] (c :: t))
      else none
    match intPart with
    | none => none
    | some (ip, rest1) =>
      match readFrac rest1 with
      | none => none
      | some (fp, rest2) =>
        match readExp rest2 with
        | none => none
        | some (ep, rest3) => some (⟨neg ++ ip ++ fp ++ ep⟩, rest3)

mutual

/-- Parse one JSON value. -/
def readJson : Nat → List Char → Option (Json × List Char)
  | 0, _ => none
  | fuel + 1, s =>
    match skipWs s with
    | 'n' :: 'u' :: 'l' :: 'l' :: t => some (.null, t)
    | 't' :: 'r' :: 'u' :: 'e' :: t => some (.bool true, t)
    | 'f' :: 'a' :: 'l' :: 's' :: 'e' :: t => some (.bool false, t)
    | '"' :: t =>
      match readJsonString (t.length + 1) [] t with
      | some (str, t2) => some (.str str, t2)
      | none => none
    | '-' :: t =>
      (match readJsonNumber ('-' :: t) with
       | some (lit, t2) => some (.num lit, t2)
       | none => none)
    | '[' :: t =>
      (match skipWs t with
       | ']' :: t2 => some (.arr [], t2)
       | _ => match readJsonItems fuel t with
              | some (xs, t2) => some (.arr xs, t2)
              | none => none)
    | '\x7b' :: t =>
      (match skipWs t with
       | '\x7d' :: t2 => some (.obj [], t2)
       | _ => match readJsonMembers fuel t with
              | some (kvs, t2) => some (.obj kvs, t2)
              | none => none)
    | c :: t =>
      if c.isDigit then
        match readJsonNumber (c :: t) with
        | some (lit, t2) => some (.num lit, t2)
        | none => none
      else none
    | [] => none

/-- Parse comma-separated array items up to the closing bracket. -/
def readJsonItems : Nat → List Char → Option (List Json × List Char)
  | 0, _ => none
  | fuel + 1, s =>
    match readJson fuel s with
    | none => none
    | some (v, t) =>
      match skipWs t with
      | ',' :: t2 =>
        (match readJsonItems fuel t2 with
         | some (xs, t3) => some (v :: xs, t3)
         | none => none)
      | ']' :: t2 => some ([v], t2)
      | _ => none

/-- Parse comma-separated `"key": value` members up to the closing brace. -/
def readJsonMembers : Nat → List Char → Option (List (String × Json) × List Char)
  | 0, _ => none
  | fuel + 1, s =>
    match skipWs s with
    | '"' :: t =>
      (match readJsonString (t.length + 1) [] t with
       | none => none
       | some (k, t2) =>
         match skipWs t2 with
         | ':' :: t3 =>
           (match readJson fuel t3 with
            | none => none
            | some (v, t4) =>
              match skipWs t4 with
              | ',' :: t5 =>
                (match readJsonMembers fuel t5 with
                 | some (kvs, t6) => some ((k, v) :: kvs, t6)
                 | none => none)
              | '\x7d' :: t5 => some ([(k, v)], t5)
              | _ => none)
         | _ => none)
    | _ => none

end

/-- Modelled from Go's `encoding/json` (standard library, external to the
repository): `json.Unmarshal(body, &m)` for `m : map[string]interface{}`
succeeds exactly when the whole input, modulo surrounding whitespace, is a
single JSON value that is either an object — yielding its members — or
`null`, which sets the map to nil (so the detector's key loop sees zero
keys) and produces no error, as `encoding/json` documents for unmarshaling
null; any syntax error, trailing garbage, or value of a non-map kind
(array, string, number, boolean) is an unmarshal error. -/
def unmarshalMap (s : String) : Option (List (String × Json)) :=
  match readJson (2 * s.length + 2) s.data with
  | some (v, rest) =>
    if (skipWs rest).isEmpty then
      match v with
      | .obj kvs => some kvs
      | .null => some []
      | _ => none
    else none
  | none => none

/-- The alert message of `DetectInJsonReqBody` (utils.go line 144). -/
def bodyAlertMsg (huntType bodyParam checksum : String) : String :=
  huntType ++ " \nREQUEST BODY PARAM: `" ++ bodyParam ++ "` \nFILE:  `" ++ checksum ++ "`"

/-- The error value returned when `json.Unmarshal` fails (the model keeps a
single representative message). -/
def jsonUnmarshalError : String := "json: cannot unmarshal into map[string]interface \x7b\x7d"

/-- Embeds `DetectInJsonReqBody` (utils.go lines 131-151): an empty body
returns nil immediately; a body on which the unmarshal fails makes the
function return that error; otherwise every top-level key containing the
watched entry (case-insensitively) produces an alert, and nil is
returned.  The emitted alerts are the value of the model. -/
def DetectInJsonReqBody (huntType jsonParam : String) (ud : UserData) :
    Except String (List String) :=
  if ud.reqBody = "" then .ok []
  else
    match unmarshalMap ud.reqBody with
    | none => .error jsonUnmarshalError
    | some kvs =>
      .ok (kvs.filterMap fun kv =>
        if nameMatches kv.1 jsonParam then some (bodyAlertMsg huntType kv.1 ud.checksum)
        else none)

/-! ## Filter matching engine

Every filter guards its handler with
`goproxy.UrlMatches(regexp.MustCompile(fmt.Sprintf("(%v)", strings.Join(urlsList, ")|("))))`
(customFilters lines 201, 242, 268, 300).  The URL-list lines are embedded
verbatim — no escaping — into the disjunction `(LINE1)|(LINE2)|...`, and
the proxy engine tests the compiled pattern against the request URL with
Go's unanchored `MatchString`.  The fragment of Go regexp syntax the
pattern language needs (literals, `.`, `*`, grouping, alternation) is
embedded as Brzozowski derivatives. -/

/-- Regular expressions over characters. -/
inductive Regex where
  | emp
  | eps
  | lit (c : Char)
  | dot
  | alt (r₁ r₂ : Regex)
  | seq (r₁ r₂ : Regex)
  | star (r : Regex)

/-- Does the regex accept the empty string? -/
def Regex.nullable : Regex → Bool
  | .emp => false
  | .eps => true
  | .lit _ => false
  | .dot => false
  | .alt r s => r.nullable || s.nullable
  | .seq r s => r.nullable && s.nullable
  | .star _ => true

/-- Brzozowski derivative.  Go's `.` matches any character except
newline. -/
def Regex.deriv : Regex → Char → Regex
  | .emp, _ => .emp
  | .eps, _ => .emp
  | .lit c, a => if c = a then .eps else .emp
  | .dot, a => if a = '\n' then .emp else .eps
  | .alt r s, a => .alt (r.deriv a) (s.deriv a)
  | .seq r s, a =>
    if r.nullable then .alt (.seq (r.deriv a) s) (s.deriv a) else .seq (r.deriv a) s
  | .star r, a => .seq (r.deriv a) (.star r)

/-- Does the regex accept some prefix of `s`? -/
def matchesPref (r : Regex) : List Char → Bool
  | [] => r.nullable
  | c :: t => r.nullable || matchesPref (r.deriv c) t

/-- Go's unanchored `MatchString`: the regex accepts some substring. -/
def reSearch (r : Regex) : List Char → Bool
  | [] => matchesPref r []
  | c :: t => matchesPref r (c :: t) || reSearch r t

/-- Apply trailing `*` operators to a parsed atom. -/
def reApplyStars (r : Regex) : List Char → Regex × List Char
  | '*' :: rest => reApplyStars (.star r) rest
  | s => (r, s)

mutual

/-- Parse an alternation (lowest precedence). -/
def reParseAlt : Nat → List Char → Option (Regex × List Char)
  | 0, _ => none
  | fuel + 1, s =>
    match reParseSeq fuel s with
    | none => none
    | some (r, rest) =>
      match rest with
      | '|' :: rest2 =>
        (match reParseAlt fuel rest2 with
         | none => none
         | some (r2, rest3) => some (.alt r r2, rest3))
      | _ => some (r, rest)

/-- Parse a concatenation of starred atoms. -/
def reParseSeq : Nat → List Char → Option (Regex × List Char)
  | 0, _ => none
  | fuel + 1, s =>
    match reParseStar fuel s with
    | none => none
    | some (r, rest) =>
      match rest with
      | [] => some (r, [])
      | ')' :: _ => some (r, rest)
      | '|' :: _ => some (r, rest)
      | _ =>
        match reParseSeq fuel rest with
        | none => none
        | some (r2, rest2) => some (.seq r r2, rest2)

/-- Parse an atom with its trailing stars. -/
def reParseStar : Nat → List Char → Option (Regex × List Char)
  | 0, _ => none
  | fuel + 1, s =>
    match reParseAtom fuel s with
    | none => none
    | some (r, rest) => some (reApplyStars r rest)

/-- Parse a group, a `.` or a literal character. -/
def reParseAtom : Nat → List Char → Option (Regex × List Char)
  | 0, _ => none
  | fuel + 1, s =>
    match s with
    | [] => none
    | '(' :: rest =>
      (match reParseAlt fuel rest with
       | none => none
       | some (r, rest2) =>
         match rest2 with
         | ')' :: rest3 => some (r, rest3)
         | _ => none)
    | '.' :: rest => some (.dot, rest)
    | ')' :: _ => none
    | '|' :: _ => none
    | '*' :: _ => none
    | c :: rest => some (.lit c, rest)

end

/-- `regexp.MustCompile` for the pattern fragment: `some` exactly when the
whole pattern parses. -/
def regexpCompile (pat : String) : Option Regex :=
  match reParseAlt (3 * pat.length + 3) pat.data with
  | some (r, []) => some r
  | _ => none

/-- The disjunctive pattern
`fmt.Sprintf("(%v)", strings.Join(urlsList, ")|("))` built at
customFilters lines 201, 242, 268 and 300. -/
def disjPattern (lines : List String) : String :=
  "(" ++ String.intercalate ")|(" lines ++ ")"

/-- The filter condition: compile the disjunctive pattern of the URL list
and test the request URL with unanchored search (`goproxy.UrlMatches`).
`none` models the `MustCompile` panic on an invalid pattern. -/
def urlInScope (lines : List String) (url : String) : Option Bool :=
  (regexpCompile (disjPattern lines)).map fun r => reSearch r url.data

/-! ## Helper lemmas for the claims -/

/-- The checksum stored by the population handler is the correlator applied
to host, path and body. -/
theorem populate_checksum_eq (r : Request) :
    (populateUserdataHandler r).2.checksum = correlate r.url.host r.url.path r.body := rfl

/-- Counting a `filterMap` that keeps exactly the elements satisfying `p`. -/
theorem length_filterMap_ite {α β : Type} (p : α → Bool) (f : α → β) (l : List α) :
    (l.filterMap fun a => if p a then some (f a) else none).length
      = (l.filter p).length := by
  induction l with
  | nil => rfl
  | cons a t ih =>
    by_cases h : p a <;> simp [List.filterMap_cons, List.filter_cons, h, ih]

/-! ## The claims -/

/-- C1: `WriteUniqueFile` is idempotent per `(identifier, kind, outputDir)`:
after a first call has created `{outputDir}/{identifier}.{kind}`, a second
call with the same identifier, kind and output directory but a different
payload and dump leaves the filesystem — in particular that file's
content — unchanged; only the first payload is ever persisted and the file
is written exactly once. -/
theorem claim_C1_writeArtifact_idempotent (fs : FS) (c b₁ b₂ d dump₁ dump₂ e : String) :
    WriteUniqueFile (WriteUniqueFile fs c b₁ d dump₁ e) c b₂ d dump₂ e
      = WriteUniqueFile fs c b₁ d dump₁ e ∧
    lookupFile (WriteUniqueFile (WriteUniqueFile fs c b₁ d dump₁ e) c b₂ d dump₂ e)
        (mkFilePath d c e)
      = lookupFile (WriteUniqueFile fs c b₁ d dump₁ e) (mkFilePath d c e) := by
  refine ⟨writeUnique_second_noop fs c b₁ b₂ d dump₁ dump₂ e, ?_⟩
  rw [writeUnique_second_noop fs c b₁ b₂ d dump₁ dump₂ e]

/-- C2: the checksum correlator is a deterministic, pure function of
`(host, path, raw request body)`: the population handler stores exactly
`correlate host path body`, and two calls on byte-identical host, path and
body yield the identical identifier, independent of any other state. -/
theorem claim_C2_correlate_deterministic (r : Request) (h₁ p₁ b₁ h₂ p₂ b₂ : String)
    (hh : h₁ = h₂) (hp : p₁ = p₂) (hb : b₁ = b₂) :
    (populateUserdataHandler r).2.checksum = correlate r.url.host r.url.path r.body ∧
    correlate h₁ p₁ b₁ = correlate h₂ p₂ b₂ := by
  subst hh hp hb
  exact ⟨rfl, rfl⟩

/-- C2 witness: two calls of the correlator on identical concrete host,
path and body give the identical identifier. -/
theorem claim_C2_witness :
    (populateUserdataHandler ⟨"GET", ⟨"example.com", "/x", ""⟩, [], "b"⟩).2.checksum
      = correlate "example.com" "/x" "b" ∧
    correlate "example.com" "/x" "b" = correlate "example.com" "/x" "b" :=
  claim_C2_correlate_deterministic ⟨"GET", ⟨"example.com", "/x", ""⟩, [], "b"⟩
    "example.com" "/x" "b" "example.com" "/x" "b" rfl rfl rfl

/-- C3: for every identifier, dump, body and output directory, a fresh
`WriteUniqueFile` with kind `"req"` persists the dump, a single space, the
body and a trailing newline, while kind `"res"` persists only the dump plus
a trailing newline. -/
theorem claim_C3_writeArtifact_content (fs : FS) (c b d dump : String)
    (hreq : FileExists fs (mkFilePath d c "req") = false)
    (hres : FileExists fs (mkFilePath d c "res") = false) :
    lookupFile (WriteUniqueFile fs c b d dump "req") (mkFilePath d c "req")
      = some (dump ++ " " ++ b ++ "\n") ∧
    lookupFile (WriteUniqueFile fs c b d dump "res") (mkFilePath d c "res")
      = some (dump ++ "\n") := by
  constructor
  · have h := writeUnique_fresh_content fs c b d dump "req" hreq
    rw [if_neg (by decide : ¬ ("req" : String) = "res"), if_pos rfl] at h
    exact h
  · have h := writeUnique_fresh_content fs c b d dump "res" hres
    rw [if_pos rfl] at h
    exact h

/-- C3 witness: identifier `abc123`, dump `"GET /x HTTP/1.1"`, body
`"foo=bar"` produce the file `out/abc123.req` with exact content
`"GET /x HTTP/1.1 foo=bar\n"` (and `out/abc123.res` with the dump only). -/
theorem claim_C3_witness :
    FileExists [] (mkFilePath "out" "abc123" "req") = false ∧
    FileExists [] (mkFilePath "out" "abc123" "res") = false ∧
    lookupFile (WriteUniqueFile [] "abc123" "foo=bar" "out" "GET /x HTTP/1.1" "req")
        "out/abc123.req"
      = some "GET /x HTTP/1.1 foo=bar\n" ∧
    lookupFile (WriteUniqueFile [] "abc123" "foo=bar" "out" "GET /x HTTP/1.1" "res")
        "out/abc123.res"
      = some "GET /x HTTP/1.1\n" :=
  ⟨rfl, rfl,
    (claim_C3_writeArtifact_content [] "abc123" "foo=bar" "out" "GET /x HTTP/1.1" rfl rfl).1,
    (claim_C3_writeArtifact_content [] "abc123" "foo=bar" "out" "GET /x HTTP/1.1" rfl rfl).2⟩

/-- C4 counterexample: the claim says any non-2xx status yields an error,
but `SendSlackNotification` never inspects the status code — a response
with status 500 and body `"ok"` is classified as success. -/
theorem claim_C4_counterexample :
    SendSlackNotification (.response 500 "ok") = Except.ok () := rfl

/-- C4 (amended): `SendSlackNotification` succeeds exactly when the POST
completes and the response body is the literal `"ok"`, regardless of the
HTTP status code; any other body is an error, and a transport error or
timeout is returned as an error. -/
theorem claim_C4_ok_iff_body_ok (st : Nat) (body e : String) :
    (SendSlackNotification (.response st body) = .ok () ↔ body = "ok") ∧
    SendSlackNotification (.transportError e) = .error e := by
  constructor
  · by_cases hb : body = "ok" <;> simp [SendSlackNotification, hb]
  · rfl

/-- C5 counterexample: the claim says a body that does not parse as a JSON
object is silently skipped with no error, but `DetectInJsonReqBody` returns
the `json.Unmarshal` error to its caller on the body `"[1]"`. -/
theorem claim_C5_counterexample :
    DetectInJsonReqBody "IDOR" "id" ⟨"[1]", "", "c0"⟩
      = Except.error jsonUnmarshalError := rfl

/-- C5 (amended): `DetectInJsonReqBody` silently skips the scan with no
error for an empty request body, and also returns no error when the
unmarshal succeeds without producing keys — a JSON `null` body, or an
object (floats and all) whose keys simply do not match; but a non-empty
body on which `json.Unmarshal` into a map fails makes the detector return
the unmarshal error to its caller (no alert is emitted in any of these
cases). -/
theorem claim_C5_skip_empty_error_malformed (ht jp dump c b : String)
    (hne : b ≠ "") (hbad : unmarshalMap b = none) :
    DetectInJsonReqBody ht jp ⟨"", dump, c⟩ = .ok [] ∧
    DetectInJsonReqBody ht jp ⟨"null", dump, c⟩ = .ok [] ∧
    DetectInJsonReqBody ht "id" ⟨"\x7b\"a\": 1.5\x7d", dump, c⟩ = .ok [] ∧
    DetectInJsonReqBody ht jp ⟨b, dump, c⟩ = .error jsonUnmarshalError := by
  refine ⟨rfl, rfl, rfl, ?_⟩
  unfold DetectInJsonReqBody
  rw [if_neg hne, hbad]

/-- C5 witness: the empty body, the `null` body and the float-valued
object yield `ok []`, while the concrete malformed body `"[1]"` yields the
unmarshal error. -/
theorem claim_C5_witness :
    ("[1]" : String) ≠ "" ∧ unmarshalMap "[1]" = none ∧
    DetectInJsonReqBody "IDOR" "id" ⟨"", "", "c0"⟩ = .ok [] ∧
    DetectInJsonReqBody "IDOR" "id" ⟨"null", "", "c0"⟩ = .ok [] ∧
    DetectInJsonReqBody "IDOR" "id" ⟨"\x7b\"a\": 1.5\x7d", "", "c0"⟩ = .ok [] ∧
    DetectInJsonReqBody "IDOR" "id" ⟨"[1]", "", "c0"⟩ = .error jsonUnmarshalError :=
  ⟨by decide, rfl,
    (claim_C5_skip_empty_error_malformed "IDOR" "id" "" "c0" "[1]" (by decide) rfl).1,
    (claim_C5_skip_empty_error_malformed "IDOR" "id" "" "c0" "[1]" (by decide) rfl).2.1,
    (claim_C5_skip_empty_error_malformed "IDOR" "id" "" "c0" "[1]" (by decide) rfl).2.2.1,
    (claim_C5_skip_empty_error_malformed "IDOR" "id" "" "c0" "[1]" (by decide) rfl).2.2.2⟩

/-- C6: the filter matching engine builds the disjunctive pattern
`(LINE1)|(LINE2)|...` from the URL-list lines without escaping, and a URL
is in scope exactly when the compiled pattern matches it: with lines
`["/api/.*", "/health"]` a URL containing `/api/users` matches and
`/other` does not; an unescaped metacharacter in a line stays significant
(`"a.b"` matches `"axb"`). -/
theorem claim_C6_filter_matching (lines : List String) (url : String) :
    disjPattern lines = "(" ++ String.intercalate ")|(" lines ++ ")" ∧
    urlInScope lines url
      = (regexpCompile (disjPattern lines)).map (fun r => reSearch r url.data) ∧
    urlInScope ["/api/.*", "/health"] "example.com/api/users" = some true ∧
    urlInScope ["/api/.*", "/health"] "/other" = some false ∧
    urlInScope ["a.b"] "axb" = some true :=
  ⟨rfl, rfl, rfl, rfl, rfl⟩

/-- C7: the query-parameter detector emits one alert per
(query-parameter name, watchlist entry) pair in case-insensitive substring
containment, with no deduplication; query string `user_id=5&color=red`
against watchlist `["id"]` produces exactly the one alert referencing
`user_id`, and none for `color`. -/
theorem claim_C7_query_alert_per_pair (ht : String) (watch queryNames : List String)
    (c : String) :
    (queryWatchAlerts ht watch queryNames c).length
      = (watch.map fun w => (queryNames.filter fun q => nameMatches q w).length).sum ∧
    queryParamNames "user_id=5&color=red" = ["user_id", "color"] ∧
    queryWatchAlerts "IDOR" ["id"] ["user_id", "color"] "c0"
      = ["IDOR \nQUERY PARAM: `user_id` \nFILE:  `c0`"] := by
  refine ⟨?_, rfl, rfl⟩
  induction watch with
  | nil => rfl
  | cons w t ih =>
    simp only [queryWatchAlerts, List.flatMap_cons, List.length_append, List.map_cons,
      List.sum_cons] at ih ⊢
    rw [ih, DetectInReqQueryParam, length_filterMap_ite]

/-- C8: the JSON-body detector matches top-level JSON keys against
watchlist entries by case-insensitive substring containment: keys whose
lowercasings agree match identically, and on body
`{"userId": 5, "note": "x"}` with entry `"id"` exactly the key `userId`
produces an alert (and so does the casing variation `USERID`). -/
theorem claim_C8_json_case_insensitive (k₁ k₂ e : String)
    (hk : goToLower k₁ = goToLower k₂) :
    nameMatches k₁ e = nameMatches k₂ e ∧
    DetectInJsonReqBody "HUNT" "id" ⟨"\x7b\"userId\": 5, \"note\": \"x\"\x7d", "", "c0"⟩
      = .ok ["HUNT \nREQUEST BODY PARAM: `userId` \nFILE:  `c0`"] ∧
    DetectInJsonReqBody "HUNT" "id" ⟨"\x7b\"USERID\": 5, \"note\": \"x\"\x7d", "", "c0"⟩
      = .ok ["HUNT \nREQUEST BODY PARAM: `USERID` \nFILE:  `c0`"] := by
  refine ⟨?_, rfl, rfl⟩
  unfold nameMatches
  rw [hk]

/-- C8 witness: `USERID` and `userId` have the same lowercasing and are
matched identically against the entry `"id"`. -/
theorem claim_C8_witness :
    goToLower "USERID" = goToLower "userId" ∧
    nameMatches "USERID" "id" = nameMatches "userId" "id" :=
  ⟨by decide, (claim_C8_json_case_insensitive "USERID" "userId" "id" (by decide)).1⟩

/-- C9: the `PopulateUserdata` handler restores the request body: although
it drains the body stream to compute the checksum and the stored context,
the request it returns carries a body with exactly the original bytes (and
the stored context holds those same bytes). -/
theorem claim_C9_body_restored (r : Request) :
    (populateUserdataHandler r).1.body = r.body ∧
    (populateUserdataHandler r).2.reqBody = r.body :=
  ⟨rfl, rfl⟩

/-- C10: the transaction identifier depends only on the URL host, the URL
path and the raw body: two requests equal in those three components but
differing in query string, method or headers get equal identifiers, hence
the same artifact file name, and the later artifact write is a no-op. -/
theorem claim_C10_checksum_ignores_rest (r₁ r₂ : Request) (fs : FS)
    (outDir pay₁ pay₂ dump₁ dump₂ ext : String)
    (hh : r₁.url.host = r₂.url.host) (hp : r₁.url.path = r₂.url.path)
    (hb : r₁.body = r₂.body) :
    (populateUserdataHandler r₁).2.checksum = (populateUserdataHandler r₂).2.checksum ∧
    mkFilePath outDir (populateUserdataHandler r₁).2.checksum ext
      = mkFilePath outDir (populateUserdataHandler r₂).2.checksum ext ∧
    WriteUniqueFile
        (WriteUniqueFile fs (populateUserdataHandler r₁).2.checksum pay₁ outDir dump₁ ext)
        (populateUserdataHandler r₂).2.checksum pay₂ outDir dump₂ ext
      = WriteUniqueFile fs (populateUserdataHandler r₁).2.checksum pay₁ outDir dump₁ ext := by
  have hc : (populateUserdataHandler r₁).2.checksum
      = (populateUserdataHandler r₂).2.checksum := by
    rw [populate_checksum_eq, populate_checksum_eq, hh, hp, hb]
  refine ⟨hc, by rw [hc], ?_⟩
  rw [hc]
  exact writeUnique_second_noop fs (populateUserdataHandler r₂).2.checksum pay₁ pay₂
    outDir dump₁ dump₂ ext

/-- C10 witness: a GET with query `a=1` and a header, and a POST with query
`a=2` and no headers, sharing host, path and body, get the same identifier
and the second artifact write is a no-op. -/
theorem claim_C10_witness :
    (populateUserdataHandler ⟨"GET", ⟨"example.com", "/a", "a=1"⟩, [("X", "1")], "B"⟩).2.checksum
      = (populateUserdataHandler ⟨"POST", ⟨"example.com", "/a", "a=2"⟩, [], "B"⟩).2.checksum ∧
    mkFilePath "out"
        (populateUserdataHandler ⟨"GET", ⟨"example.com", "/a", "a=1"⟩, [("X", "1")], "B"⟩).2.checksum "req"
      = mkFilePath "out"
        (populateUserdataHandler ⟨"POST", ⟨"example.com", "/a", "a=2"⟩, [], "B"⟩).2.checksum "req" ∧
    WriteUniqueFile
        (WriteUniqueFile []
          (populateUserdataHandler ⟨"GET", ⟨"example.com", "/a", "a=1"⟩, [("X", "1")], "B"⟩).2.checksum
          "B" "out" "d1" "req")
        (populateUserdataHandler ⟨"POST", ⟨"example.com", "/a", "a=2"⟩, [], "B"⟩).2.checksum
        "B" "out" "d2" "req"
      = WriteUniqueFile []
          (populateUserdataHandler ⟨"GET", ⟨"example.com", "/a", "a=1"⟩, [("X", "1")], "B"⟩).2.checksum
          "B" "out" "d1" "req" :=
  claim_C10_checksum_ignores_rest
    ⟨"GET", ⟨"example.com", "/a", "a=1"⟩, [("X", "1")], "B"⟩
    ⟨"POST", ⟨"example.com", "/a", "a=2"⟩, [], "B"⟩
    [] "out" "B" "B" "d1" "d2" "req" rfl rfl rfl

end Ponieproxy
